import Mathlib

/-!
Verification of the local WhatsApp HTTP gateway (`wa_http_server.js`).

The JavaScript source is shallowly embedded below: pure helpers become Lean
functions, the mutable `lastQRData` session variable becomes explicit state
threaded through an event-step function, the Express handlers become pure
functions from a request model (plus an oracle for the external
`client.sendMessage` call) to a response model, and the filesystem touched by
the profile-directory resolver becomes an explicit state record.
-/

namespace WaServer

/-! ### Phone normalization (`normPhone`, wa_http_server.js lines 194-199)

```js
function normPhone(raw) {
  if (!raw) return "";
  let d = String(raw).replace(/\D+/g, "");
  if (d.startsWith("00")) d = d.slice(2);
  return d; // digits only, no '+'
}
```

`raw` is modelled as `Option String` (`none` = the JSON field is absent /
`undefined`); `!raw` is true exactly for an absent field or the empty string.
-/

/-- Strip a leading `"00"` once, as `d.startsWith("00") ? d.slice(2) : d`
does on the character list of `d`. -/
def stripTrunk (d : List Char) : List Char :=
  if d.take 2 = ['0', '0'] then d.drop 2 else d

/-- Embedding of `normPhone` from the source: drop everything that is not a decimal digit,
then strip one leading `"00"`. -/
def normPhone (raw : Option String) : String :=
  match raw with
  | none => ""
  | some s =>
    if s.isEmpty then ""
    else String.mk (stripTrunk (s.data.filter Char.isDigit))

/-! ### Session state (`lastQRData`, lines 155-168)

```js
let lastQRData = null;
client.on("qr", (qr) => { lastQRData = qr; ... });
client.on("ready", () => { ... lastQRData = null; });
client.on("auth_failure", (m) => console.error(...));
client.on("disconnected", (r) => { console.log(...); });
```
-/

/-- The session lifecycle events the server listens to. -/
inductive WaEvent
  | qr (payload : String)
  | ready
  | authFailure (msg : String)
  | disconnected (reason : String)
deriving DecidableEq, Repr

/-- Value of `lastQRData` at process start: `null`. -/
def initQR : Option String := none

/-- The effect of one lifecycle event on `lastQRData`. `auth_failure` and
`disconnected` handlers only log. -/
def stepQR (st : Option String) (e : WaEvent) : Option String :=
  match e with
  | .qr q => some q
  | .ready => none
  | .authFailure _ => st
  | .disconnected _ => st

/-- Value of `lastQRData` after a finite sequence of lifecycle events from start. -/
def runQR (es : List WaEvent) : Option String :=
  es.foldl stepQR initQR

/-- JavaScript truthiness of `lastQRData`: `null` and `""` are falsy, every
other string is truthy. `!!lastQRData` in the source. -/
def truthy (st : Option String) : Bool :=
  match st with
  | none => false
  | some s => !s.isEmpty

/-- Response body of `GET /status`. -/
structure StatusResp where
  ok : Bool
  needQr : Bool
  ready : Bool
deriving DecidableEq, Repr

/-- The `GET /status` handler (lines 212-218):
`{ ok: true, needQr: !!lastQRData, ready: !lastQRData }`. -/
def statusResp (st : Option String) : StatusResp :=
  { ok := true, needQr := truthy st, ready := !truthy st }

/-! ### `/send` and `/bulk` handlers (lines 225-262)

A request item `{phone, message}` is modelled with both fields optional
(`none` = the JSON field absent / `undefined`).  The external
`client.sendMessage` call is modelled by an oracle: for `/send` a single
outcome, for `/bulk` a function from the number of send attempts made so far
to the outcome of the next attempt.  Each `await` of a send or of the pacing
`setTimeout` is recorded in an explicit action trace.
-/

/-- One element of a `/bulk` `items` array, or the body of `/send`. -/
structure Item where
  phone : Option String
  message : Option String
deriving DecidableEq, Repr

/-- Outcome of one `client.sendMessage` call: resolves, or rejects with an
error message. -/
inductive SendOutcome
  | sent
  | failed (err : String)
deriving DecidableEq, Repr

/-- Embedding of `(it.message || "").toString()`: an absent field becomes `""`. -/
def coerceMessage (m : Option String) : String :=
  m.getD ""

/-- An observable awaited step of the `/bulk` loop: one send attempt
(chat id, message body, and whether the underlying send resolved), or one
pacing sleep of the given number of milliseconds. -/
inductive BulkStep
  | attempt (chatId : String) (message : String) (resolved : Bool)
  | sleep (ms : Nat)
deriving DecidableEq, Repr

/-- One entry pushed onto `results` in the `/bulk` loop. -/
structure BulkResult where
  phone : Option String
  ok : Bool
  error : Option String
deriving DecidableEq, Repr

/-- The `/bulk` loop (lines 243-257).  `send k` is the outcome of the
`(k+1)`-th `client.sendMessage` call; `rd` is `RATE_DELAY_MS` (an `Int`,
since the source compares it with `> 0` after `parseInt`); `k` counts send
attempts already made.  Returns the `results` list and the trace of awaited
steps. -/
def bulkLoop (send : Nat → SendOutcome) (rd : Int) :
    List Item → Nat → List BulkResult × List BulkStep
  | [], _ => ([], [])
  | it :: rest, k =>
    let phone := normPhone it.phone
    let message := coerceMessage it.message
    if phone.isEmpty || message.isEmpty then
      let r := bulkLoop send rd rest k
      ({ phone := it.phone, ok := false, error := some "bad item" } :: r.1, r.2)
    else
      match send k with
      | .sent =>
        let r := bulkLoop send rd rest (k + 1)
        let steps :=
          if rd > 0 then
            [BulkStep.attempt (phone ++ "@c.us") message true, BulkStep.sleep rd.toNat]
          else
            [BulkStep.attempt (phone ++ "@c.us") message true]
        ({ phone := some phone, ok := true, error := none } :: r.1, steps ++ r.2)
      | .failed e =>
        let r := bulkLoop send rd rest (k + 1)
        ({ phone := some phone, ok := false, error := some e } :: r.1,
         BulkStep.attempt (phone ++ "@c.us") message false :: r.2)

/-- The `items` field of a `/bulk` request body: absent, present but not a
JSON array, or an array of items. -/
inductive ItemsField
  | absent
  | notArray
  | array (items : List Item)

/-- Embedding of `Array.isArray(req.body.items) ? req.body.items : []` (line 241). -/
def coerceItems : ItemsField → List Item
  | .array l => l
  | _ => []

/-- Response of `/bulk`: HTTP status, `ok` flag and `results`. -/
structure BulkResp where
  status : Nat
  ok : Bool
  results : List BulkResult
deriving DecidableEq, Repr

/-- The `POST /bulk` handler (lines 239-262): coerce `items`, run the loop,
answer `200 {ok:true, results}`. -/
def bulkHandler (send : Nat → SendOutcome) (rd : Int) (field : ItemsField) :
    BulkResp × List BulkStep :=
  let r := bulkLoop send rd (coerceItems field) 0
  ({ status := 200, ok := true, results := r.1 }, r.2)

/-! ### Profile-directory resolver (`pickProfileDir`, lines 88-103)

```js
function pickProfileDir() {
  ensureDir(PROFILES_ROOT);
  const base = path.join(PROFILES_ROOT, DEFAULT_PROFILE_NAME);
  if (!hasSingletonLocks(base)) return base;
  removeSingletonLocks(base);
  if (!hasSingletonLocks(base)) return base;
  const stamp = new Date().toISOString().replace(/[:]/g, "-").split(".")[0];
  const alt = path.join(PROFILES_ROOT, `${DEFAULT_PROFILE_NAME}_${stamp}`);
  ensureDir(alt);
  return alt;
}
```

The filesystem is modelled as the set of existing paths plus the set of
paths whose removal fails (a still-held lock that `fs.rmSync` cannot clear —
the source swallows removal errors and just re-checks existence).
`fs.mkdirSync` is modelled as succeeding (its errors are likewise
swallowed).  The timestamp is a parameter `stamp`.
-/

/-- Filesystem state: which paths exist, and which of them resist removal. -/
structure FS where
  paths : List String
  stuck : List String
deriving DecidableEq, Repr

/-- Embedding of `path.join(a, b)` on the POSIX-style paths the resolver builds. -/
def pathJoin (a b : String) : String := a ++ "/" ++ b

/-- Embedding of `fs.existsSync`. -/
def fsExists (fs : FS) (p : String) : Bool := fs.paths.contains p

/-- Embedding of `ensureDir` (lines 31-33): `fs.mkdirSync(p, {recursive:true})`, errors
swallowed; modelled as making `p` exist. -/
def ensureDir (fs : FS) (p : String) : FS :=
  if fs.paths.contains p then fs else { fs with paths := p :: fs.paths }

/-- Embedding of `fs.rmSync(p, {force:true})` inside `removeSingletonLocks`: removes `p`
unless the lock is still held (`p` stuck), in which case the path stays. -/
def rmForce (fs : FS) (p : String) : FS :=
  if fs.stuck.contains p then fs
  else { fs with paths := fs.paths.filter (fun q => q ≠ p) }

/-- The two lock-marker paths inside a profile directory. -/
def lockPath (dir : String) : String := pathJoin dir "SingletonLock"

def cookiePath (dir : String) : String := pathJoin dir "SingletonCookie"

/-- Embedding of `hasSingletonLocks` (lines 35-42). -/
def hasSingletonLocks (fs : FS) (dir : String) : Bool :=
  fsExists fs (lockPath dir) || fsExists fs (cookiePath dir)

/-- Embedding of `removeSingletonLocks` (lines 44-51): best-effort removal of both
markers. -/
def removeSingletonLocks (fs : FS) (dir : String) : FS :=
  rmForce (rmForce fs (lockPath dir)) (cookiePath dir)

/-- Embedding of `pickProfileDir` (lines 88-103), parametrised by the profiles root, the
default profile name (`CLIENT_ID`) and the timestamp the rotation branch
would compute.  Returns the chosen path and the updated filesystem. -/
def pickProfileDir (root name stamp : String) (fs : FS) : String × FS :=
  let fs1 := ensureDir fs root
  let base := pathJoin root name
  if !hasSingletonLocks fs1 base then (base, fs1)
  else
    let fs2 := removeSingletonLocks fs1 base
    if !hasSingletonLocks fs2 base then (base, fs2)
    else
      let alt := pathJoin root (name ++ "_" ++ stamp)
      (alt, ensureDir fs2 alt)

/-- Response of `/send`: HTTP status, `ok` flag, optional `error` string. -/
structure SendResp where
  status : Nat
  ok : Bool
  error : Option String
deriving DecidableEq, Repr

/-- The `POST /send` handler (lines 225-237).  `send` is the outcome
`client.sendMessage` would produce.  The second component records whether a
send was attempted at all. -/
def sendHandler (send : SendOutcome) (body : Item) : SendResp × Bool :=
  let phone := normPhone body.phone
  let message := coerceMessage body.message
  if phone.isEmpty || message.isEmpty then
    ({ status := 400, ok := false, error := some "phone and message required" }, false)
  else
    match send with
    | .sent => ({ status := 200, ok := true, error := none }, true)
    | .failed e => ({ status := 500, ok := false, error := some e }, true)

/-! ### Derived definitions and spec-side readings used by the claims -/

/-- An item the `/bulk` loop rejects without a send attempt: phone
normalizes to the empty string, or the coerced message is empty (the guard
`!phone || !message` of lines 229 and 246). -/
def itemRejected (it : Item) : Bool :=
  (normPhone it.phone).isEmpty || (coerceMessage it.message).isEmpty

/-- The claim's reading of `needQr`: some `qr` event has occurred and no
`ready` event has occurred after it (i.e. the last `qr`-or-`ready` event is
a `qr`). -/
def claimNeedQr (es : List WaEvent) : Bool :=
  es.foldl (fun b e => match e with
    | .qr _ => true
    | .ready => false
    | _ => b) false

/-- Truthiness-level step for the amended reading of `needQr`: the most
recent `qr`-or-`ready` event decides, and a `qr` counts only when its
payload is a non-empty string. -/
def amendStep (b : Bool) (e : WaEvent) : Bool :=
  match e with
  | .qr q => !q.isEmpty
  | .ready => false
  | _ => b

/-- The amended reading of `needQr`. -/
def amendedNeedQr (es : List WaEvent) : Bool :=
  es.foldl amendStep false

/-- Pacing discipline actually implemented by the `/bulk` loop: a sleep
never starts a trace, after a resolved attempt with `RATE_DELAY_MS > 0` the
very next step is a sleep of exactly `RATE_DELAY_MS`, and no sleep follows a
rejected attempt or a resolved attempt with `RATE_DELAY_MS ≤ 0`. -/
def pacedTrace (rd : Int) : List BulkStep → Bool
  | [] => true
  | BulkStep.sleep _ :: _ => false
  | BulkStep.attempt _ _ res :: rest =>
    if res && decide (0 < rd) then
      match rest with
      | BulkStep.sleep d :: rest2 => (d == rd.toNat) && pacedTrace rd rest2
      | _ => false
    else pacedTrace rd rest

/-- The send attempts of a `/bulk` trace, in order, as (chat id, message)
pairs. -/
def attemptsOf (steps : List BulkStep) : List (String × String) :=
  steps.filterMap (fun s => match s with
    | BulkStep.attempt c m _ => some (c, m)
    | _ => none)

/-- A send oracle whose every call rejects. -/
def alwaysFail : Nat → SendOutcome := fun _ => SendOutcome.failed "boom"

end WaServer

namespace WaServer

/-! ### Sanity examples (concrete evaluations of the embedding) -/

example : normPhone (some "0020100123456") = "20100123456" := by decide
example : normPhone (some "+201001234567") = "201001234567" := by decide
example : statusResp initQR = { ok := true, needQr := false, ready := true } := by decide

/-! ## Claims -/

/-! ### C3: the phone normalizer -/

lemma stripTrunk_filter_all_isDigit (l : List Char) :
    ((stripTrunk (l.filter Char.isDigit)).all Char.isDigit) = true := by
  have hmem : ∀ c ∈ stripTrunk (l.filter Char.isDigit), Char.isDigit c = true := by
    intro c hc
    have hc' : c ∈ l.filter Char.isDigit := by
      unfold stripTrunk at hc
      split at hc
      · exact List.mem_of_mem_drop hc
      · exact hc
    exact (List.mem_filter.mp hc').2
  exact List.all_eq_true.mpr hmem

/-- C3: `normPhone` first removes all non-digit characters, then strips a
leading `"00"` exactly once, and returns a digits-only string; the two
literal examples from the spec hold, and `"0000"` shows the `"00"` prefix is
dropped at most one time. -/
theorem C3_normPhone :
    (∀ s : String,
        normPhone (some s) = String.mk (stripTrunk (s.data.filter Char.isDigit)) ∧
        ((normPhone (some s)).data.all Char.isDigit) = true) ∧
    normPhone (some "0020100123456") = "20100123456" ∧
    normPhone (some "+201001234567") = "201001234567" ∧
    normPhone (some "0000") = "00" := by
  refine ⟨fun s => ⟨?_, ?_⟩, by decide, by decide, by decide⟩
  · by_cases h : s = ""
    · subst h; decide
    · have h' : s.isEmpty = false := by
        cases hx : s.isEmpty
        · rfl
        · exact absurd ((String.isEmpty_iff s).mp hx) h
      simp [normPhone, h']
  · by_cases h : s = ""
    · subst h; decide
    · have h' : s.isEmpty = false := by
        cases hx : s.isEmpty
        · rfl
        · exact absurd ((String.isEmpty_iff s).mp hx) h
      simpa [normPhone, h'] using stripTrunk_filter_all_isDigit s.data

/-! ### C2: initial `/status` -/

/-- C2 counterexample: in the initial state (`lastQRData = null`), `/status`
reports `ready:true`, not `ready:false` as claimed. -/
theorem C2_counterexample : ¬ (statusResp initQR).ready = false := by decide

/-- C2 (amended): at process start, before any session lifecycle event,
`lastQRData` is `null` and `GET /status` returns `{ok:true, needQr:false,
ready:true}` — `ready` is the negation of `needQr`, so with no QR issued the
endpoint reports ready. -/
theorem C2_initial_status :
    statusResp initQR = { ok := true, needQr := false, ready := true } := by decide

/-! ### C4: `/status` over event sequences -/

lemma truthy_foldl_stepQR (es : List WaEvent) :
    ∀ st, truthy (es.foldl stepQR st) = es.foldl amendStep (truthy st) := by
  induction es with
  | nil => intro st; rfl
  | cons e rest ih =>
    intro st
    have h : truthy (stepQR st e) = amendStep (truthy st) e := by
      cases e <;> rfl
    calc truthy (List.foldl stepQR st (e :: rest))
        = truthy (List.foldl stepQR (stepQR st e) rest) := rfl
      _ = List.foldl amendStep (truthy (stepQR st e)) rest := ih _
      _ = List.foldl amendStep (amendStep (truthy st) e) rest := by rw [h]
      _ = List.foldl amendStep (truthy st) (e :: rest) := rfl

/-- C4 counterexample: a `qr` event carrying the empty string is stored in
`lastQRData`, but `""` is falsy, so `/status` reports `needQr:false` even
though a qr event occurred with no ready event after it. -/
theorem C4_counterexample :
    claimNeedQr [WaEvent.qr ""] = true ∧
    (statusResp (runQR [WaEvent.qr ""])).needQr = false := by decide

/-- C4 (amended): for every finite event sequence from the initial state,
`/status` reports `needQr:true` iff the most recent `qr`-or-`ready` event is
a `qr` whose payload is non-empty; `auth_failure` and `disconnected` leave
the session state unchanged. -/
theorem C4_needQr_iff :
    (∀ es : List WaEvent, (statusResp (runQR es)).needQr = amendedNeedQr es) ∧
    (∀ st m, stepQR st (WaEvent.authFailure m) = st) ∧
    (∀ st r, stepQR st (WaEvent.disconnected r) = st) := by
  refine ⟨fun es => ?_, fun st m => rfl, fun st r => rfl⟩
  simpa [statusResp, runQR, initQR, amendedNeedQr, truthy] using
    truthy_foldl_stepQR es none

/-! ### C9: `/bulk` with missing or non-array `items` -/

/-- C9: a `/bulk` body with no `items` field, or with a non-array `items`
value, is not rejected: the handler answers `200 {ok:true, results: []}` and
performs no send attempt or sleep. -/
theorem C9_bulk_items_coercion :
    ∀ (send : Nat → SendOutcome) (rd : Int),
      bulkHandler send rd ItemsField.absent =
        ({ status := 200, ok := true, results := [] }, []) ∧
      bulkHandler send rd ItemsField.notArray =
        ({ status := 200, ok := true, results := [] }, []) := by
  intro send rd
  exact ⟨rfl, rfl⟩

/-! ### C8: `/send` validation and failure mapping -/

/-- C8: `/send` answers 400 `{ok:false, error}` without attempting a send
whenever the message is absent or empty (regardless of `phone`) or the phone
is absent or normalizes to the empty string; when both are non-empty and the
underlying send rejects, it answers 500 `{ok:false, error}`. -/
theorem C8_send_validation :
    (∀ (send : SendOutcome) (p : Option String),
        sendHandler send { phone := p, message := none } =
          ({ status := 400, ok := false, error := some "phone and message required" }, false)) ∧
    (∀ (send : SendOutcome) (p : Option String),
        sendHandler send { phone := p, message := some "" } =
          ({ status := 400, ok := false, error := some "phone and message required" }, false)) ∧
    (∀ (send : SendOutcome) (m : Option String),
        sendHandler send { phone := none, message := m } =
          ({ status := 400, ok := false, error := some "phone and message required" }, false)) ∧
    (∀ (send : SendOutcome) (p m : Option String), normPhone p = "" →
        sendHandler send { phone := p, message := m } =
          ({ status := 400, ok := false, error := some "phone and message required" }, false)) ∧
    (∀ (e : String) (p m : Option String),
        normPhone p ≠ "" → coerceMessage m ≠ "" →
        sendHandler (SendOutcome.failed e) { phone := p, message := m } =
          ({ status := 500, ok := false, error := some e }, true)) := by
  refine ⟨fun send p => ?_, fun send p => ?_, fun send m => ?_,
    fun send p m hp => ?_, fun e p m hp hm => ?_⟩
  · have he : "".isEmpty = true := rfl
    simp [sendHandler, coerceMessage, he]
  · have he : "".isEmpty = true := rfl
    simp [sendHandler, coerceMessage, he]
  · have he : "".isEmpty = true := rfl
    simp [sendHandler, normPhone, he]
  · have hp' : (normPhone p).isEmpty = true := by
      rw [hp]; rfl
    simp [sendHandler, hp']
  · have hp' : (normPhone p).isEmpty = false := by
      cases hx : (normPhone p).isEmpty
      · rfl
      · exact absurd ((String.isEmpty_iff _).mp hx) hp
    have hm' : (coerceMessage m).isEmpty = false := by
      cases hx : (coerceMessage m).isEmpty
      · rfl
      · exact absurd ((String.isEmpty_iff _).mp hx) hm
    simp [sendHandler, hp', hm']

/-- C8 witness: the validation and failure branches at concrete inputs. -/
theorem C8_send_validation_witness :
    sendHandler SendOutcome.sent { phone := some "123", message := none } =
      ({ status := 400, ok := false, error := some "phone and message required" }, false) ∧
    sendHandler SendOutcome.sent { phone := some "+()", message := some "hi" } =
      ({ status := 400, ok := false, error := some "phone and message required" }, false) ∧
    sendHandler (SendOutcome.failed "boom") { phone := some "+201", message := some "hi" } =
      ({ status := 500, ok := false, error := some "boom" }, true) :=
  ⟨C8_send_validation.1 SendOutcome.sent (some "123"),
   C8_send_validation.2.2.2.1 SendOutcome.sent (some "+()") (some "hi") (by decide),
   C8_send_validation.2.2.2.2 "boom" (some "+201") (some "hi") (by decide) (by decide)⟩

/-! ### Unfolding lemmas for the `/bulk` loop -/

lemma bulkLoop_cons_rejected (send : Nat → SendOutcome) (rd : Int) (it : Item)
    (rest : List Item) (k : Nat) (h : itemRejected it = true) :
    bulkLoop send rd (it :: rest) k =
      ({ phone := it.phone, ok := false, error := some "bad item" } ::
          (bulkLoop send rd rest k).1,
        (bulkLoop send rd rest k).2) := by
  unfold itemRejected at h
  simp [bulkLoop, h]

lemma bulkLoop_cons_sent (send : Nat → SendOutcome) (rd : Int) (it : Item)
    (rest : List Item) (k : Nat) (h : itemRejected it = false)
    (hs : send k = SendOutcome.sent) :
    bulkLoop send rd (it :: rest) k =
      ({ phone := some (normPhone it.phone), ok := true, error := none } ::
          (bulkLoop send rd rest (k + 1)).1,
        (if rd > 0 then
            [BulkStep.attempt (normPhone it.phone ++ "@c.us") (coerceMessage it.message) true,
             BulkStep.sleep rd.toNat]
          else
            [BulkStep.attempt (normPhone it.phone ++ "@c.us") (coerceMessage it.message) true]) ++
          (bulkLoop send rd rest (k + 1)).2) := by
  unfold itemRejected at h
  simp [bulkLoop, h, hs]

lemma bulkLoop_cons_failed (send : Nat → SendOutcome) (rd : Int) (it : Item)
    (rest : List Item) (k : Nat) (e : String) (h : itemRejected it = false)
    (hs : send k = SendOutcome.failed e) :
    bulkLoop send rd (it :: rest) k =
      ({ phone := some (normPhone it.phone), ok := false, error := some e } ::
          (bulkLoop send rd rest (k + 1)).1,
        BulkStep.attempt (normPhone it.phone ++ "@c.us") (coerceMessage it.message) false ::
          (bulkLoop send rd rest (k + 1)).2) := by
  unfold itemRejected at h
  simp [bulkLoop, h, hs]

/-- Per-item shape of the `results` list: a rejected item yields an
`ok:false` entry echoing the original phone value; any item that reaches a
send attempt yields an entry carrying the normalized phone. -/
lemma bulkLoop_results_spec (send : Nat → SendOutcome) (rd : Int) :
    ∀ (items : List Item) (k : Nat),
      List.Forall₂ (fun it r =>
          (itemRejected it = true → r.ok = false ∧ r.phone = it.phone) ∧
          (itemRejected it = false → r.phone = some (normPhone it.phone)))
        items (bulkLoop send rd items k).1 := by
  intro items
  induction items with
  | nil => intro k; exact List.Forall₂.nil
  | cons it rest ih =>
    intro k
    cases h : itemRejected it with
    | true =>
      rw [bulkLoop_cons_rejected send rd it rest k h]
      exact List.Forall₂.cons
        ⟨fun _ => ⟨rfl, rfl⟩, fun hf => absurd hf (by simp [h])⟩
        (ih k)
    | false =>
      cases hs : send k with
      | sent =>
        rw [bulkLoop_cons_sent send rd it rest k h hs]
        exact List.Forall₂.cons
          ⟨fun ht => absurd ht (by simp [h]), fun _ => rfl⟩
          (ih (k + 1))
      | failed e =>
        rw [bulkLoop_cons_failed send rd it rest k e h hs]
        exact List.Forall₂.cons
          ⟨fun ht => absurd ht (by simp [h]), fun _ => rfl⟩
          (ih (k + 1))

/-! ### C5: `/bulk` produces one result per item, in order -/

/-- C5: for every `items` array, `/bulk` answers 200 `{ok:true}` with one
result per item in input order (same length, pointwise correspondence), a
rejected item (empty normalized phone or missing/empty message) is marked
`ok:false`, and processing continues past failures; in particular
`[{phone:"1",message:"a"},{phone:"",message:"b"}]` yields two results with
the second marked `ok:false`, whatever the send outcomes. -/
theorem C5_bulk_results :
    (∀ (send : Nat → SendOutcome) (rd : Int) (items : List Item),
        (bulkHandler send rd (ItemsField.array items)).1.status = 200 ∧
        (bulkHandler send rd (ItemsField.array items)).1.ok = true ∧
        (bulkHandler send rd (ItemsField.array items)).1.results.length = items.length ∧
        List.Forall₂ (fun it r => itemRejected it = true → r.ok = false)
          items (bulkHandler send rd (ItemsField.array items)).1.results) ∧
    (∀ (send : Nat → SendOutcome) (rd : Int),
        ((bulkHandler send rd (ItemsField.array
            [{ phone := some "1", message := some "a" },
             { phone := some "", message := some "b" }])).1.results.length = 2 ∧
          ((bulkHandler send rd (ItemsField.array
            [{ phone := some "1", message := some "a" },
             { phone := some "", message := some "b" }])).1.results.map BulkResult.ok).drop 1 =
            [false])) := by
  constructor
  · intro send rd items
    have hf := bulkLoop_results_spec send rd items 0
    have hf' : List.Forall₂ (fun it r => itemRejected it = true → r.ok = false)
        items (bulkLoop send rd items 0).1 :=
      hf.imp (fun _ _ h ht => (h.1 ht).1)
    exact ⟨rfl, rfl, (hf'.length_eq).symm, hf'⟩
  · intro send rd
    have hA : itemRejected { phone := some "1", message := some "a" } = false := by decide
    have hB : itemRejected { phone := some "", message := some "b" } = true := by decide
    have hrest : bulkLoop send rd [{ phone := some "", message := some "b" }] (0 + 1) =
        ({ phone := some "", ok := false, error := some "bad item" } :: ([] : List BulkResult),
          ([] : List BulkStep)) := by
      rw [bulkLoop_cons_rejected send rd _ [] (0 + 1) hB]
      rfl
    cases hs : send 0 with
    | sent =>
      have h1 := bulkLoop_cons_sent send rd { phone := some "1", message := some "a" }
        [{ phone := some "", message := some "b" }] 0 hA hs
      constructor
      · show (bulkLoop send rd
          [{ phone := some "1", message := some "a" },
           { phone := some "", message := some "b" }] 0).1.length = 2
        rw [h1, hrest]
        rfl
      · show ((bulkLoop send rd
          [{ phone := some "1", message := some "a" },
           { phone := some "", message := some "b" }] 0).1.map BulkResult.ok).drop 1 = [false]
        rw [h1, hrest]
        rfl
    | failed e =>
      have h1 := bulkLoop_cons_failed send rd { phone := some "1", message := some "a" }
        [{ phone := some "", message := some "b" }] 0 e hA hs
      constructor
      · show (bulkLoop send rd
          [{ phone := some "1", message := some "a" },
           { phone := some "", message := some "b" }] 0).1.length = 2
        rw [h1, hrest]
        rfl
      · show ((bulkLoop send rd
          [{ phone := some "1", message := some "a" },
           { phone := some "", message := some "b" }] 0).1.map BulkResult.ok).drop 1 = [false]
        rw [h1, hrest]
        rfl

/-! ### C10: phone field in `/bulk` results is not uniformly normalized -/

/-- C10: in `/bulk` results, a rejected item echoes the caller's original
phone value while every item that reaches a send attempt (success or
failure) reports the normalized digits-only phone; concretely, a rejected
item with phone `"+20 1"` is echoed verbatim while an attempted-but-failed
item with phone `"+201"` reports `"201"`. -/
theorem C10_result_phone :
    (∀ (send : Nat → SendOutcome) (rd : Int) (items : List Item),
        List.Forall₂ (fun it r =>
            (itemRejected it = true → r.phone = it.phone) ∧
            (itemRejected it = false → r.phone = some (normPhone it.phone)))
          items (bulkHandler send rd (ItemsField.array items)).1.results) ∧
    ((bulkHandler alwaysFail 120 (ItemsField.array
        [{ phone := some "+20 1", message := some "" },
         { phone := some "+201", message := some "x" }])).1.results.map BulkResult.phone =
      [some "+20 1", some "201"]) := by
  constructor
  · intro send rd items
    exact (bulkLoop_results_spec send rd items 0).imp
      (fun _ _ h => ⟨fun ht => (h.1 ht).2, h.2⟩)
  · decide

/-! ### C1: pacing of the `/bulk` loop -/

lemma bulkLoop_pacedTrace (send : Nat → SendOutcome) (rd : Int) :
    ∀ (items : List Item) (k : Nat), pacedTrace rd (bulkLoop send rd items k).2 = true := by
  intro items
  induction items with
  | nil => intro k; rfl
  | cons it rest ih =>
    intro k
    cases h : itemRejected it with
    | true =>
      rw [bulkLoop_cons_rejected send rd it rest k h]
      exact ih k
    | false =>
      cases hs : send k with
      | sent =>
        rw [bulkLoop_cons_sent send rd it rest k h hs]
        by_cases hrd : rd > 0
        · rw [if_pos hrd]
          simp only [List.cons_append, List.nil_append]
          rw [pacedTrace.eq_def]
          simp [hrd, ih (k + 1)]
        · rw [if_neg hrd]
          simp only [List.cons_append, List.nil_append]
          rw [pacedTrace.eq_def]
          simp [hrd, ih (k + 1)]
      | failed e =>
        rw [bulkLoop_cons_failed send rd it rest k e h hs]
        rw [pacedTrace.eq_def]
        simp [ih (k + 1)]

lemma bulkLoop_attempts (send : Nat → SendOutcome) (rd : Int) :
    ∀ (items : List Item) (k : Nat),
      attemptsOf (bulkLoop send rd items k).2 =
        (items.filter (fun it => !itemRejected it)).map
          (fun it => (normPhone it.phone ++ "@c.us", coerceMessage it.message)) := by
  intro items
  induction items with
  | nil => intro k; rfl
  | cons it rest ih =>
    intro k
    cases h : itemRejected it with
    | true =>
      rw [bulkLoop_cons_rejected send rd it rest k h]
      simp [List.filter_cons, h, ih k]
    | false =>
      cases hs : send k with
      | sent =>
        rw [bulkLoop_cons_sent send rd it rest k h hs]
        by_cases hrd : rd > 0
        · rw [if_pos hrd]
          simp [attemptsOf, List.filter_cons, h, ← ih (k + 1), attemptsOf]
        · rw [if_neg hrd]
          simp [attemptsOf, List.filter_cons, h, ← ih (k + 1), attemptsOf]
      | failed e =>
        rw [bulkLoop_cons_failed send rd it rest k e h hs]
        simp [attemptsOf, List.filter_cons, h, ← ih (k + 1), attemptsOf]

/-- C1 counterexample: with the default `RATE_DELAY_MS = 120` and two valid
items whose sends both reject, the loop performs the two attempts with no
sleep between them (indeed no sleep at all) — no pacing delay follows a
failed send attempt. -/
theorem C1_counterexample :
    (bulkHandler alwaysFail 120 (ItemsField.array
        [{ phone := some "1", message := some "a" },
         { phone := some "2", message := some "b" }])).2 =
      [BulkStep.attempt "1@c.us" "a" false, BulkStep.attempt "2@c.us" "b" false] ∧
    BulkStep.sleep 120 ∉ (bulkHandler alwaysFail 120 (ItemsField.array
        [{ phone := some "1", message := some "a" },
         { phone := some "2", message := some "b" }])).2 := by decide

/-- C1 (amended): `/bulk` processes items strictly sequentially — its trace
is one send attempt per non-rejected item, in input order — and the fixed
`RATE_DELAY_MS` pacing sleep occurs exactly immediately after each send
attempt that succeeds (when `RATE_DELAY_MS > 0`); after a failed send
attempt or a rejected item the next item starts with no delay. -/
theorem C1_bulk_pacing :
    ∀ (send : Nat → SendOutcome) (rd : Int) (items : List Item),
      pacedTrace rd (bulkHandler send rd (ItemsField.array items)).2 = true ∧
      attemptsOf (bulkHandler send rd (ItemsField.array items)).2 =
        (items.filter (fun it => !itemRejected it)).map
          (fun it => (normPhone it.phone ++ "@c.us", coerceMessage it.message)) :=
  fun send rd items =>
    ⟨bulkLoop_pacedTrace send rd items 0, bulkLoop_attempts send rd items 0⟩

/-! ### C6 and C7: the profile-directory resolver -/

lemma fsExists_ensureDir (fs : FS) (p q : String) :
    fsExists (ensureDir fs p) q = (fsExists fs q || q == p) := by
  unfold fsExists ensureDir
  by_cases h : fs.paths.contains p
  · rw [if_pos h]
    by_cases hq : q = p
    · subst hq
      rw [beq_self_eq_true, Bool.or_true, h]
    · have hb : (q == p) = false := by
        rw [beq_eq_false_iff_ne]
        exact hq
      rw [hb, Bool.or_false]
  · rw [if_neg h]
    show (p :: fs.paths).contains q = _
    rw [List.contains_cons]
    exact Bool.or_comm _ _

lemma pathJoin_length (a b : String) :
    (pathJoin a b).length = a.length + b.length + 1 := by
  have hs : ("/" : String).length = 1 := rfl
  rw [pathJoin, String.length_append, String.length_append, hs]
  omega

lemma lockPath_ne_root (root name : String) :
    (lockPath (pathJoin root name) == root) = false := by
  rw [beq_eq_false_iff_ne]
  intro hcontra
  have hl := congrArg String.length hcontra
  rw [lockPath, pathJoin_length, pathJoin_length] at hl
  omega

lemma cookiePath_ne_root (root name : String) :
    (cookiePath (pathJoin root name) == root) = false := by
  rw [beq_eq_false_iff_ne]
  intro hcontra
  have hl := congrArg String.length hcontra
  rw [cookiePath, pathJoin_length, pathJoin_length] at hl
  omega

/-- Creating the profiles root directory neither creates nor removes lock
markers inside the default profile directory. -/
lemma hasSingletonLocks_ensureDir_root (fs : FS) (root name : String) :
    hasSingletonLocks (ensureDir fs root) (pathJoin root name) =
      hasSingletonLocks fs (pathJoin root name) := by
  unfold hasSingletonLocks
  rw [fsExists_ensureDir, fsExists_ensureDir, lockPath_ne_root, cookiePath_ne_root]
  simp

/-- C7: with no lock markers at the default profile path, the resolver
returns the default path `root/name` unchanged, and a second call on the
resulting filesystem returns that same path again. -/
theorem C7_resolver_no_locks (root name stamp stamp2 : String) (fs : FS)
    (h : hasSingletonLocks fs (pathJoin root name) = false) :
    (pickProfileDir root name stamp fs).1 = pathJoin root name ∧
    (pickProfileDir root name stamp2 (pickProfileDir root name stamp fs).2).1 =
      pathJoin root name := by
  have h1 : hasSingletonLocks (ensureDir fs root) (pathJoin root name) = false := by
    rw [hasSingletonLocks_ensureDir_root]
    exact h
  have e1 : pickProfileDir root name stamp fs = (pathJoin root name, ensureDir fs root) := by
    unfold pickProfileDir
    simp [h1]
  refine ⟨by rw [e1], ?_⟩
  rw [e1]
  have h2 : hasSingletonLocks (ensureDir (ensureDir fs root) root) (pathJoin root name) =
      false := by
    rw [hasSingletonLocks_ensureDir_root]
    exact h1
  unfold pickProfileDir
  simp [h2]

/-- C7 witness: on an empty filesystem the resolver picks
`.chrome_profiles/nour` twice in a row. -/
theorem C7_resolver_no_locks_witness :
    hasSingletonLocks ⟨[], []⟩ (pathJoin ".chrome_profiles" "nour") = false ∧
    (pickProfileDir ".chrome_profiles" "nour" "2024-01-01T00-00-00" ⟨[], []⟩).1 =
      pathJoin ".chrome_profiles" "nour" ∧
    (pickProfileDir ".chrome_profiles" "nour" "2024-01-01T00-00-01"
        (pickProfileDir ".chrome_profiles" "nour" "2024-01-01T00-00-00" ⟨[], []⟩).2).1 =
      pathJoin ".chrome_profiles" "nour" := by
  have h := C7_resolver_no_locks ".chrome_profiles" "nour" "2024-01-01T00-00-00"
    "2024-01-01T00-00-01" ⟨[], []⟩ (by decide)
  exact ⟨by decide, h.1, h.2⟩

/-- C6: when lock markers exist at the default profile path and removing
them does not clear them, the resolver returns the timestamp-suffixed
alternate path `root/name_stamp`, which differs from the default path and
exists on the (modelled) filesystem afterwards. -/
theorem C6_resolver_locked (root name stamp : String) (fs : FS)
    (h1 : hasSingletonLocks (ensureDir fs root) (pathJoin root name) = true)
    (h2 : hasSingletonLocks
        (removeSingletonLocks (ensureDir fs root) (pathJoin root name))
        (pathJoin root name) = true) :
    (pickProfileDir root name stamp fs).1 = pathJoin root (name ++ "_" ++ stamp) ∧
    (pickProfileDir root name stamp fs).1 ≠ pathJoin root name ∧
    fsExists (pickProfileDir root name stamp fs).2 (pickProfileDir root name stamp fs).1 =
      true := by
  have e1 : pickProfileDir root name stamp fs =
      (pathJoin root (name ++ "_" ++ stamp),
        ensureDir (removeSingletonLocks (ensureDir fs root) (pathJoin root name))
          (pathJoin root (name ++ "_" ++ stamp))) := by
    unfold pickProfileDir
    simp [h1, h2]
  refine ⟨by rw [e1], ?_, ?_⟩
  · rw [e1]
    intro hcontra
    have hl := congrArg String.length hcontra
    rw [pathJoin_length, pathJoin_length, String.length_append, String.length_append] at hl
    have h1l : ("_" : String).length = 1 := rfl
    rw [h1l] at hl
    omega
  · rw [e1]
    rw [fsExists_ensureDir]
    simp

/-- C6 witness: a stuck `SingletonLock` under `.chrome_profiles/nour` forces
rotation to `.chrome_profiles/nour_2024-01-01T00-00-00`, which exists
afterwards. -/
theorem C6_resolver_locked_witness :
    hasSingletonLocks
      (ensureDir ⟨[pathJoin (pathJoin ".chrome_profiles" "nour") "SingletonLock"],
        [pathJoin (pathJoin ".chrome_profiles" "nour") "SingletonLock"]⟩ ".chrome_profiles")
      (pathJoin ".chrome_profiles" "nour") = true ∧
    (pickProfileDir ".chrome_profiles" "nour" "2024-01-01T00-00-00"
        ⟨[pathJoin (pathJoin ".chrome_profiles" "nour") "SingletonLock"],
          [pathJoin (pathJoin ".chrome_profiles" "nour") "SingletonLock"]⟩).1 =
      pathJoin ".chrome_profiles" ("nour" ++ "_" ++ "2024-01-01T00-00-00") ∧
    fsExists
      (pickProfileDir ".chrome_profiles" "nour" "2024-01-01T00-00-00"
        ⟨[pathJoin (pathJoin ".chrome_profiles" "nour") "SingletonLock"],
          [pathJoin (pathJoin ".chrome_profiles" "nour") "SingletonLock"]⟩).2
      (pickProfileDir ".chrome_profiles" "nour" "2024-01-01T00-00-00"
        ⟨[pathJoin (pathJoin ".chrome_profiles" "nour") "SingletonLock"],
          [pathJoin (pathJoin ".chrome_profiles" "nour") "SingletonLock"]⟩).1 = true := by
  have h := C6_resolver_locked ".chrome_profiles" "nour" "2024-01-01T00-00-00"
    ⟨[pathJoin (pathJoin ".chrome_profiles" "nour") "SingletonLock"],
      [pathJoin (pathJoin ".chrome_profiles" "nour") "SingletonLock"]⟩
    (by decide) (by decide)
  exact ⟨by decide, h.1, h.2.2⟩

end WaServer
